import Mathlib

set_option maxHeartbeats 1000000

/- Shallow embedding of the Tharbiya registration backend (backend/app.js) and
the dashboard role-report formatter (frontend/src/components/Dashboard.tsx).
A spreadsheet row is a list of cell strings; a missing cell reads as the empty
string, mirroring the JavaScript idiom `row[i] || ''`. The row store (the
`ExecutiveList` sheet below the header) is a list of rows; index 0 corresponds
to sheet row 2. -/

/-- JS whitespace characters relevant to `String.prototype.trim`. -/
def jsWhitespace (c : Char) : Bool := c == ' ' || c == '\t' || c == '\n' || c == '\r'

/-- JS `s.trim()`: strip leading and trailing whitespace. -/
def jsTrim (s : String) : String :=
  ⟨((s.data.dropWhile jsWhitespace).reverse.dropWhile jsWhitespace).reverse⟩

/-- Lower-case a single ASCII character, as `String.prototype.toLowerCase`
does on the ASCII range used by zone and member names. -/
def jsLowerChar (c : Char) : Char :=
  if 65 ≤ c.toNat && c.toNat ≤ 90 then Char.ofNat (c.toNat + 32) else c

/-- JS `s.toLowerCase()`. -/
def jsToLower (s : String) : String := ⟨s.data.map jsLowerChar⟩

/-- A spreadsheet row: column 0 = zone (mandalam), 1 = name, 2 = mobile,
3 = participated, 4 = status, 5 = secretariat role, 6 = executive flag,
7 = fallback mobile, 8 = call status, 9 = call remarks. -/
abbrev Row := List String

/-- JS `row[i] || ''`: cell access defaulting to the empty string. -/
def cell (row : Row) (i : Nat) : String := row.getD i ""

/-- JS `(row[4] || '').trim() === 'Leave'`. -/
def isLeave (row : Row) : Bool := jsTrim (cell row 4) == "Leave"

/-- JS `(row[4] || '').trim() === 'Success'`. -/
def isSuccessRow (row : Row) : Bool := jsTrim (cell row 4) == "Success"

/-- JS `s.trim().toLowerCase()`, the normalisation applied to both sides of
the (zone, name) identity comparison in the register and call-status
handlers. -/
def normKey (s : String) : String := jsToLower (jsTrim s)

/-- The predicate of the `rows.findIndex` callback in POST /api/register
(and POST /api/call-status): the trimmed lower-cased (zone, name) of the row
equals the trimmed lower-cased request pair. Reads only columns 0 and 1. -/
def rowMatches (mandalam name : String) (row : Row) : Bool :=
  normKey (cell row 0) == normKey mandalam && normKey (cell row 1) == normKey name

/-- JS `Array.prototype.findIndex`, returning `none` for -1. -/
def findIndex (p : Row → Bool) : List Row → Option Nat
  | [] => none
  | r :: rs => if p r then some 0 else (findIndex p rs).map (· + 1)

/-- An HTTP response reduced to its status code and its message text. -/
structure Response where
  status : Nat
  body : String
deriving DecidableEq, Repr

/-- Pad a row with empty cells up to length `n` (a spreadsheet write to a
column beyond the current row length fills the gap with empty cells). -/
def padTo (row : Row) (n : Nat) : Row := row ++ List.replicate (n - row.length) ""

/-- Write value `v` into column `i` of a row, padding if the row is short. -/
def setCell (row : Row) (i : Nat) (v : String) : Row := (padTo row (i + 1)).set i v

/-- The single batched update of POST /api/register: range `C<r>:E<r>` gets
`[[mobile, participated, "Success"]]`, i.e. columns 2, 3, 4 of the row. -/
def writeRegistration (row : Row) (mobile participated : String) : Row :=
  setCell (setCell (setCell row 2 mobile) 3 participated) 4 "Success"

/-- POST /api/register: fetch A2:B, `findIndex` on normalised (zone, name),
404 if the sheet is empty or no row matches, otherwise update C:E of the
matched sheet row and report success. Returns the response together with the
resulting row store. -/
def registerHandler (mandalam name mobile participated : String) (store : List Row) :
    Response × List Row :=
  if store.isEmpty then
    ({ status := 404, body := "No data found in sheet" }, store)
  else
    match findIndex (rowMatches mandalam name) store with
    | none => ({ status := 404, body := "User not found in the list" }, store)
    | some i =>
        ({ status := 200, body := "Registration updated successfully" },
         store.set i (writeRegistration (store.getD i []) mobile participated))

/-- The update of POST /api/call-status: range `I<r>:J<r>` gets
`[[callStatus, remarks]]`, i.e. columns 8 and 9 of the row. -/
def writeCallStatus (row : Row) (callStatus remarks : String) : Row :=
  setCell (setCell row 8 callStatus) 9 remarks

/-- POST /api/call-status: same lookup as /api/register, then update I:J of
the matched row. -/
def callStatusHandler (zone name callStatus remarks : String) (store : List Row) :
    Response × List Row :=
  if store.isEmpty then
    ({ status := 404, body := "No data found in sheet" }, store)
  else
    match findIndex (rowMatches zone name) store with
    | none => ({ status := 404, body := "User not found in the list" }, store)
    | some i =>
        ({ status := 200, body := "Call status updated successfully" },
         store.set i (writeCallStatus (store.getD i []) callStatus remarks))

/-- An entry of the GET /api/data response: `{mandalam, name}`. -/
structure DataEntry where
  mandalam : String
  name : String
deriving DecidableEq, Repr

/-- GET /api/data: empty response when the sheet has no rows, otherwise the
rows whose trimmed status is neither "Success" nor "Leave", mapped to
`{mandalam: row[0] || '', name: row[1] || ''}`. -/
def apiData (rows : List Row) : List DataEntry :=
  if rows.isEmpty then []
  else
    (rows.filter fun row =>
      let status := jsTrim (cell row 4)
      status != "Success" && status != "Leave").map fun row =>
      { mandalam := cell row 0, name := cell row 1 }

/-- The GET /api/dashboard/stats response (the float percentage field is
omitted; no claim concerns it). -/
structure Stats where
  total : Nat
  registered : Nat
  notRegistered : Nat
deriving DecidableEq, Repr

/-- GET /api/dashboard/stats: drop "Leave" rows, count all and "Success"
rows, report the difference as notRegistered. -/
def dashboardStats (rows : List Row) : Stats :=
  let activeRows := rows.filter fun row => !isLeave row
  let total := activeRows.length
  let registered := (activeRows.filter isSuccessRow).length
  { total := total, registered := registered, notRegistered := total - registered }

/-- One entry of the GET /api/dashboard/zones response. -/
structure ZoneStat where
  name : String
  total : Nat
  registered : Nat
  notRegistered : Nat
deriving DecidableEq, Repr

/-- The per-row mutation of a zone's tally in the zones handler:
`total++`, then `registered++` if the status is "Success" else
`notRegistered++`. -/
def zoneTally (z : ZoneStat) (status : String) : ZoneStat :=
  { z with
    total := z.total + 1
    registered := if status == "Success" then z.registered + 1 else z.registered
    notRegistered := if status == "Success" then z.notRegistered else z.notRegistered + 1 }

/-- A fresh `zoneMap[zone]` entry after its first row. -/
def newZoneStat (zone status : String) : ZoneStat :=
  zoneTally { name := zone, total := 0, registered := 0, notRegistered := 0 } status

/-- The JS object `zoneMap` as an insertion-ordered list: update the existing
entry in place, or append a new one. -/
def addToZoneMap : List ZoneStat → String → String → List ZoneStat
  | [], zone, status => [newZoneStat zone status]
  | z :: zs, zone, status =>
    if z.name == zone then zoneTally z status :: zs
    else z :: addToZoneMap zs zone status

/-- The body of the `rows.forEach` loop in the zones handler: skip rows with
an empty trimmed zone and rows whose status is "Leave". -/
def zonesStep (acc : List ZoneStat) (row : Row) : List ZoneStat :=
  let zone := jsTrim (cell row 0)
  let status := jsTrim (cell row 4)
  if zone == "" then acc
  else if status == "Leave" then acc
  else addToZoneMap acc zone status

/-- GET /api/dashboard/zones: group rows by trimmed zone, skipping empty
zones and "Leave" rows, in first-appearance order (`Object.values`). -/
def dashboardZones (rows : List Row) : List ZoneStat :=
  rows.foldl zonesStep []

/-- One entry of the GET /api/dashboard/members response. -/
structure Member where
  zone : String
  name : String
  mobile : String
  participated : String
  status : String
  role : String
  executive : String
  registered : Bool
  callStatus : String
  callRemarks : String
deriving DecidableEq, Repr

/-- The row-to-member mapping of the members handler; the mobile field uses
column 7 exactly when trimmed column 2 is empty (`mobileC || mobileH`). -/
def mkMember (row : Row) : Member :=
  let mobileC := jsTrim (cell row 2)
  let mobileH := jsTrim (cell row 7)
  { zone := jsTrim (cell row 0)
    name := jsTrim (cell row 1)
    mobile := if mobileC == "" then mobileH else mobileC
    participated := jsTrim (cell row 3)
    status := jsTrim (cell row 4)
    role := jsTrim (cell row 5)
    executive := jsTrim (cell row 6)
    registered := jsTrim (cell row 4) == "Success"
    callStatus := jsTrim (cell row 8)
    callRemarks := jsTrim (cell row 9) }

/-- JS `if (zone && zone !== 'all')`: filter by case-insensitive zone match;
an absent or empty or "all" query leaves the list unchanged. -/
def applyZoneFilter (zone : Option String) (ms : List Member) : List Member :=
  match zone with
  | none => ms
  | some z =>
    if z != "" && z != "all" then
      ms.filter fun m => jsToLower m.zone == jsToLower z
    else ms

/-- JS `if (role && role !== 'All')`: "Secretariat" filters on the role
column, "Executive" on the executive column, anything else is ignored. -/
def applyRoleFilter (role : Option String) (ms : List Member) : List Member :=
  match role with
  | none => ms
  | some r =>
    if r != "" && r != "All" then
      if r == "Secretariat" then ms.filter fun m => m.role == r
      else if r == "Executive" then ms.filter fun m => m.executive == r
      else ms
    else ms

/-- JS status query handling: "registered" and "not_registered" filter on the
derived registered flag; any other value is ignored. -/
def applyStatusFilter (status : Option String) (ms : List Member) : List Member :=
  if status == some "registered" then ms.filter fun m => m.registered
  else if status == some "not_registered" then ms.filter fun m => !m.registered
  else ms

/-- GET /api/dashboard/members: drop "Leave" rows, map to member objects,
then apply the zone, role and status query filters in that order. -/
def dashboardMembers (zone role status : Option String) (rows : List Row) : List Member :=
  let members := (rows.filter fun row => !isLeave row).map mkMember
  applyStatusFilter status (applyRoleFilter role (applyZoneFilter zone members))

/-- A raw (total, registered) tally for one role within one zone. -/
structure RoleCount where
  total : Nat
  registered : Nat
deriving DecidableEq, Repr

/-- `total++; if (status === 'Success') registered++`. -/
def bumpCount (rc : RoleCount) (status : String) : RoleCount :=
  { total := rc.total + 1
    registered := if status == "Success" then rc.registered + 1 else rc.registered }

/-- The raw `zoneStats[zone]` accumulator of the role-stats handler. -/
structure ZoneRoleCount where
  name : String
  secretariat : RoleCount
  executive : RoleCount
deriving DecidableEq, Repr

/-- The per-row mutation of a zone's accumulator in the role-stats handler:
bump the secretariat tally when the role column is "Secretariat", and the
executive tally when the executive column is "Executive". -/
def roleStatsTally (z : ZoneRoleCount) (role executive status : String) : ZoneRoleCount :=
  let z1 :=
    if role == "Secretariat" then { z with secretariat := bumpCount z.secretariat status }
    else z
  if executive == "Executive" then { z1 with executive := bumpCount z1.executive status }
  else z1

/-- The JS object `zoneStats` as an insertion-ordered list. -/
def addToRoleMap : List ZoneRoleCount → String → String → String → String → List ZoneRoleCount
  | [], zone, role, executive, status =>
    [roleStatsTally { name := zone, secretariat := ⟨0, 0⟩, executive := ⟨0, 0⟩ }
      role executive status]
  | z :: zs, zone, role, executive, status =>
    if z.name == zone then roleStatsTally z role executive status :: zs
    else z :: addToRoleMap zs zone role executive status

/-- The body of the `activeRows.forEach` loop in the role-stats handler. -/
def roleStep (acc : List ZoneRoleCount) (row : Row) : List ZoneRoleCount :=
  let zone := jsTrim (cell row 0)
  let status := jsTrim (cell row 4)
  let role := jsTrim (cell row 5)
  let executive := jsTrim (cell row 6)
  if zone == "" then acc
  else addToRoleMap acc zone role executive status

/-- One role's block in the role-stats response. `pct10` renders
`((registered / total) * 100).toFixed(1)` as an integer count of tenths of a
percent (rounding half up, as `toFixed` does on these exactly representable
inputs), with the literal `0` of the zero-total branch mapping to `0`. -/
structure RoleStatsOut where
  total : Nat
  registered : Nat
  pct10 : Nat
  isComplete : Bool
deriving DecidableEq, Repr

/-- The final per-role mapping of the role-stats handler: percentage guarded
by `total > 0`, and `isComplete = total > 0 && registered === total`. -/
def mkRoleStatsOut (rc : RoleCount) : RoleStatsOut :=
  { total := rc.total
    registered := rc.registered
    pct10 := if 0 < rc.total then (rc.registered * 2000 + rc.total) / (2 * rc.total) else 0
    isComplete := decide (0 < rc.total) && rc.registered == rc.total }

/-- One entry of the GET /api/dashboard/role-stats response. -/
structure ZoneRoleStatsOut where
  name : String
  secretariat : RoleStatsOut
  executive : RoleStatsOut
deriving DecidableEq, Repr

/-- GET /api/dashboard/role-stats: drop "Leave" rows, fold the remaining rows
into per-zone role tallies, then attach percentages and completion flags. -/
def dashboardRoleStats (rows : List Row) : List ZoneRoleStatsOut :=
  let activeRows := rows.filter fun row => !isLeave row
  (activeRows.foldl roleStep []).map fun z =>
    { name := z.name
      secretariat := mkRoleStatsOut z.secretariat
      executive := mkRoleStatsOut z.executive }

/-- The dashboard's role-report filter dropdown: 'Secretariat', 'Executive'
or 'All'. -/
inductive RoleReportFilter
  | secretariat
  | executive
  | all
deriving DecidableEq, Repr

/-- The secretariat arm of the incomplete-zone selection in
`generateRoleReportWhatsAppMessage`: `!z.secretariat.isComplete &&
z.secretariat.total > 0`. -/
def secIncomplete (z : ZoneRoleStatsOut) : Bool :=
  !z.secretariat.isComplete && decide (0 < z.secretariat.total)

/-- The executive arm of the incomplete-zone selection. -/
def execIncomplete (z : ZoneRoleStatsOut) : Bool :=
  !z.executive.isComplete && decide (0 < z.executive.total)

/-- Insert one element into a list already sorted by descending key, placing
it before the first element whose key is not larger; together with
`sortKeyDesc` this reproduces the (stable, ES2019) JS
`sort((a, b) => parseFloat(b.percentage) - parseFloat(a.percentage))`. -/
def insertKeyDesc {α : Type} (key : α → Nat) (x : α) : List α → List α
  | [] => [x]
  | y :: ys => if key y ≤ key x then x :: y :: ys else y :: insertKeyDesc key x ys

/-- Stable sort by descending key (insertion sort; any stable sort under a
consistent comparator yields the same list). -/
def sortKeyDesc {α : Type} (key : α → Nat) : List α → List α
  | [] => []
  | x :: xs => insertKeyDesc key x (sortKeyDesc key xs)

/-- A value of the frontend's `zoneMap` in the 'All' branch of
`generateRoleReportWhatsAppMessage`. -/
structure AllEntry where
  secFlag : Bool
  execFlag : Bool
  zone : ZoneRoleStatsOut
deriving DecidableEq, Repr

/-- The executive pass over `zoneMap` in the 'All' branch: mark an existing
entry, or append a fresh executive-only entry (JS `Map` preserves insertion
order; `set` on an existing key keeps its position). -/
def allBranchStep (m : List (String × AllEntry)) (z : ZoneRoleStatsOut) :
    List (String × AllEntry) :=
  if m.any fun e => e.1 == z.name then
    m.map fun e => if e.1 == z.name then (e.1, { e.2 with execFlag := true }) else e
  else m ++ [(z.name, { secFlag := false, execFlag := true, zone := z })]

/-- The ordered zone list that `generateRoleReportWhatsAppMessage` enumerates
(one numbered message line per element): for the 'Secretariat' and
'Executive' filters the incomplete zones sorted by descending percentage; for
'All' the union of both incomplete sets in `Map` insertion order, unsorted. -/
def roleReportZones (f : RoleReportFilter) (roleStats : List ZoneRoleStatsOut) :
    List ZoneRoleStatsOut :=
  match f with
  | .secretariat =>
    sortKeyDesc (fun z => z.secretariat.pct10) (roleStats.filter secIncomplete)
  | .executive =>
    sortKeyDesc (fun z => z.executive.pct10) (roleStats.filter execIncomplete)
  | .all =>
    let m1 := (roleStats.filter secIncomplete).foldl
      (fun m z => m ++ [(z.name, ({ secFlag := true, execFlag := false, zone := z } : AllEntry))])
      []
    let m2 := (roleStats.filter execIncomplete).foldl allBranchStep m1
    m2.map fun e => e.2.zone

/-- The three possible bearer-token situations on a request. -/
inductive BearerToken
  | missing
  | invalid
  | valid
deriving DecidableEq, Repr

/-- Modelled from the spec: the `authenticateToken` middleware lives in
backend/auth.js, which is not among the sources; per the spec, "absence or
invalidity yields 401", so exactly a valid token passes. -/
def tokenAccepted : BearerToken → Bool
  | .valid => true
  | _ => false

/-- The HTTP routes registered in backend/app.js. -/
inductive Route
  | apiData
  | register
  | callStatus
  | config
  | configMessage
  | configImage
  | login
  | stats
  | zones
  | members
  | roleStats
deriving DecidableEq, Repr

/-- Whether the route registration in backend/app.js passes the
`authenticateToken` middleware: the config and dashboard routes do; the data,
register, call-status and login routes do not. -/
def hasAuthMiddleware : Route → Bool
  | .config => true
  | .configMessage => true
  | .configImage => true
  | .stats => true
  | .zones => true
  | .members => true
  | .roleStats => true
  | _ => false

/-- The four `/api/dashboard/`-prefixed routes. -/
def isDashboardRoute : Route → Bool
  | .stats => true
  | .zones => true
  | .members => true
  | .roleStats => true
  | _ => false

/-- Response status of a request through the middleware chain: when the route
carries `authenticateToken` and the token is not accepted, 401; otherwise the
handler's own status. -/
def dispatchStatus (r : Route) (t : BearerToken) (handlerStatus : Nat) : Nat :=
  if hasAuthMiddleware r && !tokenAccepted t then 401 else handlerStatus

/-- Whether the route handler (and hence its sheet operation) runs at all. -/
def handlerRuns (r : Route) (t : BearerToken) : Bool :=
  !hasAuthMiddleware r || tokenAccepted t

/-- Success or error outcome of a route, with the payload of the success
branch kept typed. -/
inductive ApiResult (α : Type)
  | ok (status : Nat) (value : α)
  | err (status : Nat) (message : String)
deriving DecidableEq, Repr

/-- GET /api/data including its catch branch: an upstream sheet failure is
surfaced as 500 with `'Error fetching data: ' + error.message`. -/
def apiDataRoute (fetch : Except String (List Row)) : ApiResult (List DataEntry) :=
  match fetch with
  | .ok rows => .ok 200 (apiData rows)
  | .error msg => .err 500 ("Error fetching data: " ++ msg)

/-- GET /api/dashboard/stats including its catch branch: an upstream failure
is surfaced as 500 with the fixed body `'Failed to fetch statistics'` (the
underlying message is only logged). -/
def statsRoute (fetch : Except String (List Row)) : ApiResult Stats :=
  match fetch with
  | .ok rows => .ok 200 (dashboardStats rows)
  | .error _ => .err 500 "Failed to fetch statistics"

/-- The response of POST /api/register including its catch branch: an
upstream failure is surfaced as 500 with `'Error saving data: ' +
error.message`. -/
def registerRouteResp (mandalam name mobile participated : String)
    (fetch : Except String (List Row)) : Response :=
  match fetch with
  | .ok store => (registerHandler mandalam name mobile participated store).1
  | .error msg => { status := 500, body := "Error saving data: " ++ msg }

/-- The response of POST /api/call-status including its catch branch: an
upstream failure is surfaced as 500 with `'Error updating call status: ' +
error.message`. -/
def callStatusRouteResp (zone name callStatus remarks : String)
    (fetch : Except String (List Row)) : Response :=
  match fetch with
  | .ok store => (callStatusHandler zone name callStatus remarks store).1
  | .error msg => { status := 500, body := "Error updating call status: " ++ msg }

/-- GET /api/dashboard/zones including its catch branch: an upstream failure
is surfaced as 500 with the fixed body `'Failed to fetch zone data'`. -/
def zonesRoute (fetch : Except String (List Row)) : ApiResult (List ZoneStat) :=
  match fetch with
  | .ok rows => .ok 200 (dashboardZones rows)
  | .error _ => .err 500 "Failed to fetch zone data"

/-- GET /api/dashboard/members including its catch branch: an upstream
failure is surfaced as 500 with the fixed body `'Failed to fetch members'`. -/
def membersRoute (zone role status : Option String) (fetch : Except String (List Row)) :
    ApiResult (List Member) :=
  match fetch with
  | .ok rows => .ok 200 (dashboardMembers zone role status rows)
  | .error _ => .err 500 "Failed to fetch members"

/-- GET /api/dashboard/role-stats including its catch branch: an upstream
failure is surfaced as 500 with the fixed body
`'Failed to fetch role statistics'`. -/
def roleStatsRoute (fetch : Except String (List Row)) : ApiResult (List ZoneRoleStatsOut) :=
  match fetch with
  | .ok rows => .ok 200 (dashboardRoleStats rows)
  | .error _ => .err 500 "Failed to fetch role statistics"

/-- The master admin credentials read from the environment. -/
structure LoginEnv where
  adminUsername : String
  adminPassword : String
deriving DecidableEq, Repr

/-- POST /api/auth/login: master credentials short-circuit to success; the
admin-sheet read is wrapped in its own try/catch whose failure is only
logged, so a sheet error with non-master credentials falls through to 401
`'Invalid credentials'`. Sheet admins match on trimmed username and
password. -/
def loginHandler (env : LoginEnv) (username password : String)
    (adminFetch : Except String (List Row)) : Response :=
  if username == env.adminUsername && password == env.adminPassword then
    { status := 200, body := "success" }
  else
    match adminFetch with
    | .error _ => { status := 401, body := "Invalid credentials" }
    | .ok rows =>
      if rows.any fun row => jsTrim (cell row 0) == username && jsTrim (cell row 1) == password
      then { status := 200, body := "success" }
      else { status := 401, body := "Invalid credentials" }

/-- Helper: `getD` of a `replicate` of the default is always the default. -/
theorem getD_replicate_self {α : Type} (d : α) (k j : Nat) :
    (List.replicate k d).getD j d = d := by
  induction k generalizing j with
  | zero => cases j <;> rfl
  | succ k ih => cases j with
    | zero => rfl
    | succ j => exact ih j

/-- Helper: padding with default cells does not change any `getD` read. -/
theorem getD_append_replicate {α : Type} (d : α) (l : List α) (k j : Nat) :
    (l ++ List.replicate k d).getD j d = l.getD j d := by
  induction l generalizing j with
  | nil => simp only [List.nil_append]; exact getD_replicate_self d k j
  | cons a as ih => cases j with
    | zero => rfl
    | succ j => exact ih j

/-- Helper: `set` at one index leaves other `getD` reads unchanged. -/
theorem getD_set_of_ne {α : Type} (d : α) (l : List α) (i j : Nat) (v : α) (h : j ≠ i) :
    (l.set i v).getD j d = l.getD j d := by
  induction l generalizing i j with
  | nil => rfl
  | cons a as ih =>
    cases i with
    | zero =>
      cases j with
      | zero => exact absurd rfl h
      | succ j => rfl
    | succ i =>
      cases j with
      | zero => rfl
      | succ j => exact ih i j fun hji => h (by omega)

/-- Helper: an in-bounds `set` is read back by `getD` at the same index. -/
theorem getD_set_self {α : Type} (d : α) (l : List α) (i : Nat) (v : α) (h : i < l.length) :
    (l.set i v).getD i d = v := by
  induction l generalizing i with
  | nil => simp at h
  | cons a as ih =>
    cases i with
    | zero => rfl
    | succ i => exact ih i (by simpa using h)

/-- Padding a row does not change any cell read. -/
theorem cell_padTo (row : Row) (n j : Nat) : cell (padTo row n) j = cell row j :=
  getD_append_replicate "" row _ j

/-- A cell write is read back at its own column. -/
theorem cell_setCell_self (row : Row) (i : Nat) (v : String) :
    cell (setCell row i v) i = v := by
  have hlen : i < (padTo row (i + 1)).length := by
    simp only [padTo, List.length_append, List.length_replicate]
    omega
  exact getD_set_self "" _ i v hlen

/-- A cell write leaves every other column unchanged. -/
theorem cell_setCell_of_ne (row : Row) (i j : Nat) (v : String) (h : j ≠ i) :
    cell (setCell row i v) j = cell row j := by
  unfold setCell
  rw [show cell ((padTo row (i + 1)).set i v) j = (padTo row (i + 1)).getD j "" from
    getD_set_of_ne "" _ i j v h]
  exact cell_padTo row (i + 1) j

/-- The register write puts the mobile into column 2. -/
theorem writeRegistration_cell_two (row : Row) (m p : String) :
    cell (writeRegistration row m p) 2 = m := by
  unfold writeRegistration
  rw [cell_setCell_of_ne _ 4 2 _ (by omega), cell_setCell_of_ne _ 3 2 _ (by omega),
    cell_setCell_self]

/-- The register write puts the participated flag into column 3. -/
theorem writeRegistration_cell_three (row : Row) (m p : String) :
    cell (writeRegistration row m p) 3 = p := by
  unfold writeRegistration
  rw [cell_setCell_of_ne _ 4 3 _ (by omega), cell_setCell_self]

/-- The register write puts the literal "Success" into column 4. -/
theorem writeRegistration_cell_four (row : Row) (m p : String) :
    cell (writeRegistration row m p) 4 = "Success" := by
  unfold writeRegistration
  rw [cell_setCell_self]

/-- The register write touches no column outside 2, 3, 4. -/
theorem writeRegistration_cell_other (row : Row) (m p : String) (k : Nat)
    (h2 : k ≠ 2) (h3 : k ≠ 3) (h4 : k ≠ 4) :
    cell (writeRegistration row m p) k = cell row k := by
  unfold writeRegistration
  rw [cell_setCell_of_ne _ 4 k _ h4, cell_setCell_of_ne _ 3 k _ h3,
    cell_setCell_of_ne _ 2 k _ h2]

/-- If the predicate rejects every row, `findIndex` finds nothing. -/
theorem findIndex_eq_none (p : Row → Bool) (l : List Row)
    (h : ∀ r ∈ l, p r = false) : findIndex p l = none := by
  induction l with
  | nil => rfl
  | cons a as ih =>
    unfold findIndex
    rw [h a (by simp), ih fun r hr => h r (by simp [hr])]
    rfl

/-- A found index is in bounds. -/
theorem findIndex_lt_length (p : Row → Bool) (l : List Row) (i : Nat)
    (h : findIndex p l = some i) : i < l.length := by
  induction l generalizing i with
  | nil => simp [findIndex] at h
  | cons a as ih =>
    unfold findIndex at h
    by_cases hp : p a
    · simp [hp] at h
      subst h
      simp
    · simp [hp] at h
      obtain ⟨i', hi', rfl⟩ := h
      have := ih i' hi'
      simp only [List.length_cons]
      omega

/-- `findIndex` returns the first matching index: the row there matches and
every earlier row does not. -/
theorem findIndex_first (p : Row → Bool) (l : List Row) (i : Nat)
    (h : findIndex p l = some i) :
    p (l.getD i []) = true ∧ ∀ j, j < i → p (l.getD j []) = false := by
  induction l generalizing i with
  | nil => simp [findIndex] at h
  | cons a as ih =>
    unfold findIndex at h
    by_cases hp : p a
    · simp [hp] at h
      subst h
      exact ⟨hp, fun j hj => by omega⟩
    · simp [hp] at h
      obtain ⟨i', hi', rfl⟩ := h
      obtain ⟨h1, h2⟩ := ih i' hi'
      refine ⟨h1, fun j hj => ?_⟩
      cases j with
      | zero => simpa using hp
      | succ j => exact h2 j (by omega)

/-- Replacing a row with one on which the predicate agrees does not change
the `findIndex` result. -/
theorem findIndex_set_same (p : Row → Bool) (l : List Row) (i : Nat) (r : Row)
    (h : p r = p (l.getD i [])) :
    findIndex p (l.set i r) = findIndex p l := by
  induction l generalizing i with
  | nil => rfl
  | cons a as ih =>
    cases i with
    | zero =>
      show findIndex p (r :: as) = findIndex p (a :: as)
      unfold findIndex
      rw [show p r = p a from h]
    | succ i =>
      show findIndex p (a :: as.set i r) = findIndex p (a :: as)
      unfold findIndex
      rw [ih i h]

/-- The projection of a row to its zone and name columns, the only columns
the register lookup reads. -/
def proj01 (row : Row) : String × String := (cell row 0, cell row 1)

/-- The register lookup predicate factors through `proj01`. -/
theorem rowMatches_proj (m n : String) (row : Row) :
    rowMatches m n row =
      (normKey (proj01 row).1 == normKey m && normKey (proj01 row).2 == normKey n) := rfl

/-- Two stores agreeing on the zone and name columns give the same
`findIndex` result for the register lookup: the scan reads nothing else. -/
theorem findIndex_congr_proj (m n : String) (l₁ l₂ : List Row)
    (h : l₁.map proj01 = l₂.map proj01) :
    findIndex (rowMatches m n) l₁ = findIndex (rowMatches m n) l₂ := by
  induction l₁ generalizing l₂ with
  | nil =>
    cases l₂ with
    | nil => rfl
    | cons b bs => simp at h
  | cons a as ih =>
    cases l₂ with
    | nil => simp at h
    | cons b bs =>
      simp only [List.map_cons, List.cons.injEq] at h
      unfold findIndex
      rw [rowMatches_proj m n a, rowMatches_proj m n b, h.1, ih bs h.2]

/-- The register write leaves the zone and name columns untouched. -/
theorem proj01_writeRegistration (row : Row) (m p : String) :
    proj01 (writeRegistration row m p) = proj01 row := by
  unfold proj01
  rw [writeRegistration_cell_other row m p 0 (by omega) (by omega) (by omega),
    writeRegistration_cell_other row m p 1 (by omega) (by omega) (by omega)]

/-- The register lookup cannot distinguish a row from its written-back
version. -/
theorem rowMatches_writeRegistration (m n : String) (row : Row) (a b : String) :
    rowMatches m n (writeRegistration row a b) = rowMatches m n row := by
  rw [rowMatches_proj, rowMatches_proj, proj01_writeRegistration]

/-- A nonempty store is where `findIndex` can succeed. -/
theorem isEmpty_false_of_findIndex (p : Row → Bool) (store : List Row) (i : Nat)
    (h : findIndex p store = some i) : store.isEmpty = false := by
  cases store with
  | nil => simp [findIndex] at h
  | cons a as => rfl

/-- C1: a register request whose normalised (zone, name) pair matches no row
gets a 404 response and leaves every row of the store unchanged (the empty
store is the "No data found in sheet" 404; otherwise "User not found in the
list"). -/
theorem c1_register_not_found (m n mob part : String) (store : List Row)
    (h : ∀ row ∈ store, rowMatches m n row = false) :
    (registerHandler m n mob part store).1.status = 404 ∧
    (registerHandler m n mob part store).2 = store := by
  cases store with
  | nil => exact ⟨rfl, rfl⟩
  | cons a as =>
    unfold registerHandler
    rw [findIndex_eq_none (rowMatches m n) (a :: as) h]
    exact ⟨rfl, rfl⟩

theorem c1_register_not_found_witness :
    (∀ row ∈ [["Zone A", "Alice"], ["Zone B", "Bob"]],
      rowMatches "Zone C" "Carol" row = false) ∧
    (registerHandler "Zone C" "Carol" "123" "yes"
      [["Zone A", "Alice"], ["Zone B", "Bob"]]).1.status = 404 ∧
    (registerHandler "Zone C" "Carol" "123" "yes"
      [["Zone A", "Alice"], ["Zone B", "Bob"]]).2 =
      [["Zone A", "Alice"], ["Zone B", "Bob"]] :=
  ⟨by decide, c1_register_not_found "Zone C" "Carol" "123" "yes" _ (by decide)⟩

/-- C2: when the scan finds index `i`, the handler returns success, that row
is the first case-insensitive match, the scan depends only on the zone and
name columns, and the one batched write changes exactly cells 2, 3, 4 of row
`i` to the mobile, the participated flag and the literal "Success"; a second
register call for the same identity with a different mobile also succeeds and
overwrites the mobile cell. -/
theorem c2_register_success (m n mob part mob' part' : String) (store : List Row) (i : Nat)
    (h : findIndex (rowMatches m n) store = some i) :
    (registerHandler m n mob part store).1 =
      { status := 200, body := "Registration updated successfully" } ∧
    rowMatches m n (store.getD i []) = true ∧
    (∀ j, j < i → rowMatches m n (store.getD j []) = false) ∧
    (∀ store' : List Row, store'.map proj01 = store.map proj01 →
      findIndex (rowMatches m n) store' = findIndex (rowMatches m n) store) ∧
    (∀ j, j ≠ i → (registerHandler m n mob part store).2.getD j [] = store.getD j []) ∧
    cell ((registerHandler m n mob part store).2.getD i []) 2 = mob ∧
    cell ((registerHandler m n mob part store).2.getD i []) 3 = part ∧
    cell ((registerHandler m n mob part store).2.getD i []) 4 = "Success" ∧
    (∀ k, k ≠ 2 → k ≠ 3 → k ≠ 4 →
      cell ((registerHandler m n mob part store).2.getD i []) k = cell (store.getD i []) k) ∧
    (registerHandler m n mob' part' (registerHandler m n mob part store).2).1.status = 200 ∧
    cell ((registerHandler m n mob' part' (registerHandler m n mob part store).2).2.getD i []) 2
      = mob' := by
  have hlen : i < store.length := findIndex_lt_length _ _ _ h
  have hne : store.isEmpty = false := isEmpty_false_of_findIndex _ _ _ h
  have hr : registerHandler m n mob part store =
      ({ status := 200, body := "Registration updated successfully" },
       store.set i (writeRegistration (store.getD i []) mob part)) := by
    unfold registerHandler
    rw [hne, h]
    rfl
  obtain ⟨hfirst, hbefore⟩ := findIndex_first (rowMatches m n) store i h
  have hgetset : (store.set i (writeRegistration (store.getD i []) mob part)).getD i [] =
      writeRegistration (store.getD i []) mob part :=
    getD_set_self [] store i _ hlen
  have hfind1 : findIndex (rowMatches m n)
      (store.set i (writeRegistration (store.getD i []) mob part)) = some i := by
    rw [findIndex_set_same (rowMatches m n) store i _
      (rowMatches_writeRegistration m n (store.getD i []) mob part), h]
  have hlen1 : i < (store.set i (writeRegistration (store.getD i []) mob part)).length := by
    rw [List.length_set]
    exact hlen
  have hne1 : (store.set i (writeRegistration (store.getD i []) mob part)).isEmpty = false :=
    isEmpty_false_of_findIndex _ _ _ hfind1
  have hr2 : registerHandler m n mob' part'
      (store.set i (writeRegistration (store.getD i []) mob part)) =
      ({ status := 200, body := "Registration updated successfully" },
       (store.set i (writeRegistration (store.getD i []) mob part)).set i
         (writeRegistration
           ((store.set i (writeRegistration (store.getD i []) mob part)).getD i [])
           mob' part')) := by
    unfold registerHandler
    rw [hne1, hfind1]
    rfl
  refine ⟨by rw [hr], hfirst, hbefore,
    fun store' hmap => findIndex_congr_proj m n store' store hmap,
    fun j hj => by rw [hr]; exact getD_set_of_ne [] store i j _ hj,
    ?_, ?_, ?_, ?_, ?_, ?_⟩
  · rw [hr]
    show cell ((store.set i (writeRegistration (store.getD i []) mob part)).getD i []) 2 = mob
    rw [hgetset, writeRegistration_cell_two]
  · rw [hr]
    show cell ((store.set i (writeRegistration (store.getD i []) mob part)).getD i []) 3 = part
    rw [hgetset, writeRegistration_cell_three]
  · rw [hr]
    show cell ((store.set i (writeRegistration (store.getD i []) mob part)).getD i []) 4
      = "Success"
    rw [hgetset, writeRegistration_cell_four]
  · intro k h2 h3 h4
    rw [hr]
    show cell ((store.set i (writeRegistration (store.getD i []) mob part)).getD i []) k
      = cell (store.getD i []) k
    rw [hgetset, writeRegistration_cell_other _ _ _ k h2 h3 h4]
  · rw [hr]
    show (registerHandler m n mob' part'
      (store.set i (writeRegistration (store.getD i []) mob part))).1.status = 200
    rw [hr2]
  · rw [hr]
    show cell ((registerHandler m n mob' part'
      (store.set i (writeRegistration (store.getD i []) mob part))).2.getD i []) 2 = mob'
    rw [hr2]
    show cell (((store.set i (writeRegistration (store.getD i []) mob part)).set i
      (writeRegistration
        ((store.set i (writeRegistration (store.getD i []) mob part)).getD i [])
        mob' part')).getD i []) 2 = mob'
    rw [getD_set_self [] _ i _ hlen1, writeRegistration_cell_two]

theorem c2_register_success_witness :
    findIndex (rowMatches "Zone B" "bob")
      [["Zone A", "Alice"], [" zone b ", "BOB", "old", "no", "Success"]] = some 1 ∧
    ((registerHandler "Zone B" "bob" "111" "yes"
        [["Zone A", "Alice"], [" zone b ", "BOB", "old", "no", "Success"]]).1 =
      { status := 200, body := "Registration updated successfully" } ∧
    rowMatches "Zone B" "bob"
      ([["Zone A", "Alice"], [" zone b ", "BOB", "old", "no", "Success"]].getD 1 []) = true ∧
    (∀ j, j < 1 → rowMatches "Zone B" "bob"
      ([["Zone A", "Alice"], [" zone b ", "BOB", "old", "no", "Success"]].getD j []) = false) ∧
    (∀ store' : List Row, store'.map proj01 =
        [["Zone A", "Alice"], [" zone b ", "BOB", "old", "no", "Success"]].map proj01 →
      findIndex (rowMatches "Zone B" "bob") store' =
      findIndex (rowMatches "Zone B" "bob")
        [["Zone A", "Alice"], [" zone b ", "BOB", "old", "no", "Success"]]) ∧
    (∀ j, j ≠ 1 → (registerHandler "Zone B" "bob" "111" "yes"
        [["Zone A", "Alice"], [" zone b ", "BOB", "old", "no", "Success"]]).2.getD j [] =
      [["Zone A", "Alice"], [" zone b ", "BOB", "old", "no", "Success"]].getD j []) ∧
    cell ((registerHandler "Zone B" "bob" "111" "yes"
      [["Zone A", "Alice"], [" zone b ", "BOB", "old", "no", "Success"]]).2.getD 1 []) 2
      = "111" ∧
    cell ((registerHandler "Zone B" "bob" "111" "yes"
      [["Zone A", "Alice"], [" zone b ", "BOB", "old", "no", "Success"]]).2.getD 1 []) 3
      = "yes" ∧
    cell ((registerHandler "Zone B" "bob" "111" "yes"
      [["Zone A", "Alice"], [" zone b ", "BOB", "old", "no", "Success"]]).2.getD 1 []) 4
      = "Success" ∧
    (∀ k, k ≠ 2 → k ≠ 3 → k ≠ 4 →
      cell ((registerHandler "Zone B" "bob" "111" "yes"
        [["Zone A", "Alice"], [" zone b ", "BOB", "old", "no", "Success"]]).2.getD 1 []) k =
      cell ([["Zone A", "Alice"], [" zone b ", "BOB", "old", "no", "Success"]].getD 1 []) k) ∧
    (registerHandler "Zone B" "bob" "222" "no"
      (registerHandler "Zone B" "bob" "111" "yes"
        [["Zone A", "Alice"], [" zone b ", "BOB", "old", "no", "Success"]]).2).1.status = 200 ∧
    cell ((registerHandler "Zone B" "bob" "222" "no"
      (registerHandler "Zone B" "bob" "111" "yes"
        [["Zone A", "Alice"], [" zone b ", "BOB", "old", "no", "Success"]]).2).2.getD 1 []) 2
      = "222") :=
  ⟨by decide,
   c2_register_success "Zone B" "bob" "111" "yes" "222" "no"
     [["Zone A", "Alice"], [" zone b ", "BOB", "old", "no", "Success"]] 1 (by decide)⟩

/-- Removing a "Leave" row from anywhere in the sheet does not change the
active-row filter shared by the stats, members and role-stats handlers. -/
theorem filter_active_drop_leave (pre post : List Row) (row : Row) (h : isLeave row = true) :
    ((pre ++ row :: post).filter fun r => !isLeave r) =
      ((pre ++ post).filter fun r => !isLeave r) := by
  simp [List.filter_append, List.filter_cons, h]

/-- The zones fold skips a "Leave" row (whether or not its zone is empty). -/
theorem zonesStep_leave (acc : List ZoneStat) (row : Row) (h : isLeave row = true) :
    zonesStep acc row = acc := by
  unfold isLeave at h
  unfold zonesStep
  by_cases hz : (jsTrim (cell row 0) == "") = true
  · simp [hz]
  · simp [hz, h]

/-- C3: a row whose trimmed status is "Leave" contributes to none of the four
dashboard read endpoints: inserting such a row anywhere in the sheet leaves
the stats, zones, members (under any zone/role/status query) and role-stats
responses unchanged. -/
theorem c3_leave_excluded (pre post : List Row) (row : Row) (zq rq sq : Option String)
    (h : isLeave row = true) :
    dashboardStats (pre ++ row :: post) = dashboardStats (pre ++ post) ∧
    dashboardZones (pre ++ row :: post) = dashboardZones (pre ++ post) ∧
    dashboardMembers zq rq sq (pre ++ row :: post) = dashboardMembers zq rq sq (pre ++ post) ∧
    dashboardRoleStats (pre ++ row :: post) = dashboardRoleStats (pre ++ post) := by
  refine ⟨?_, ?_, ?_, ?_⟩
  · unfold dashboardStats
    rw [filter_active_drop_leave pre post row h]
  · unfold dashboardZones
    rw [List.foldl_append, List.foldl_append, List.foldl_cons, zonesStep_leave _ row h]
  · unfold dashboardMembers
    rw [filter_active_drop_leave pre post row h]
  · unfold dashboardRoleStats
    rw [filter_active_drop_leave pre post row h]

theorem c3_leave_excluded_witness :
    isLeave ["C", "z", "", "", " Leave "] = true ∧
    (dashboardStats ([["A", "x"]] ++ ["C", "z", "", "", " Leave "] ::
        [["B", "y", "", "", "Success"]]) =
      dashboardStats ([["A", "x"]] ++ [["B", "y", "", "", "Success"]]) ∧
    dashboardZones ([["A", "x"]] ++ ["C", "z", "", "", " Leave "] ::
        [["B", "y", "", "", "Success"]]) =
      dashboardZones ([["A", "x"]] ++ [["B", "y", "", "", "Success"]]) ∧
    dashboardMembers (some "all") (some "All") none
        ([["A", "x"]] ++ ["C", "z", "", "", " Leave "] :: [["B", "y", "", "", "Success"]]) =
      dashboardMembers (some "all") (some "All") none
        ([["A", "x"]] ++ [["B", "y", "", "", "Success"]]) ∧
    dashboardRoleStats ([["A", "x"]] ++ ["C", "z", "", "", " Leave "] ::
        [["B", "y", "", "", "Success"]]) =
      dashboardRoleStats ([["A", "x"]] ++ [["B", "y", "", "", "Success"]])) :=
  ⟨by decide,
   c3_leave_excluded [["A", "x"]] [["B", "y", "", "", "Success"]] ["C", "z", "", "", " Leave "]
     (some "all") (some "All") none (by decide)⟩

/-- One zone-tally step keeps registered + notRegistered = total. -/
theorem zoneTally_sum (z : ZoneStat) (status : String)
    (h : z.registered + z.notRegistered = z.total) :
    (zoneTally z status).registered + (zoneTally z status).notRegistered =
      (zoneTally z status).total := by
  unfold zoneTally
  by_cases hs : (status == "Success") = true <;> simp [hs] <;> omega

/-- Updating the zone map keeps the sum invariant for every entry. -/
theorem addToZoneMap_sum (acc : List ZoneStat) (zone status : String)
    (h : ∀ z ∈ acc, z.registered + z.notRegistered = z.total) :
    ∀ z ∈ addToZoneMap acc zone status, z.registered + z.notRegistered = z.total := by
  induction acc with
  | nil =>
    intro z hz
    simp [addToZoneMap] at hz
    subst hz
    exact zoneTally_sum _ status (by simp [newZoneStat])
  | cons a as ih =>
    intro z hz
    unfold addToZoneMap at hz
    by_cases ha : (a.name == zone) = true
    · simp [ha] at hz
      rcases hz with hz | hz
      · subst hz
        exact zoneTally_sum a status (h a (by simp))
      · exact h z (by simp [hz])
    · simp [ha] at hz
      rcases hz with hz | hz
      · subst hz
        exact h z (by simp)
      · exact ih (fun w hw => h w (by simp [hw])) z hz

/-- One zones-fold step keeps the sum invariant for every entry. -/
theorem zonesStep_sum (acc : List ZoneStat) (row : Row)
    (h : ∀ z ∈ acc, z.registered + z.notRegistered = z.total) :
    ∀ z ∈ zonesStep acc row, z.registered + z.notRegistered = z.total := by
  unfold zonesStep
  by_cases hz : (jsTrim (cell row 0) == "") = true
  · simpa [hz] using h
  · by_cases hl : (jsTrim (cell row 4) == "Leave") = true
    · simpa [hz, hl] using h
    · simpa [hz, hl] using addToZoneMap_sum acc _ _ h

/-- The zones fold keeps the sum invariant from any valid accumulator. -/
theorem foldl_zonesStep_sum (rows : List Row) (acc : List ZoneStat)
    (h : ∀ z ∈ acc, z.registered + z.notRegistered = z.total) :
    ∀ z ∈ rows.foldl zonesStep acc, z.registered + z.notRegistered = z.total := by
  induction rows generalizing acc with
  | nil => exact h
  | cons r rs ih => exact ih (zonesStep acc r) (zonesStep_sum acc r h)

/-- C4: registered + notRegistered = total, both for the overall stats
response and for every zone entry of the zones response. -/
theorem c4_sum_invariant (rows : List Row) :
    (dashboardStats rows).registered + (dashboardStats rows).notRegistered =
      (dashboardStats rows).total ∧
    ∀ z ∈ dashboardZones rows, z.registered + z.notRegistered = z.total := by
  constructor
  · have hle : ((rows.filter fun r => !isLeave r).filter isSuccessRow).length ≤
        (rows.filter fun r => !isLeave r).length := List.length_filter_le _ _
    dsimp only [dashboardStats]
    omega
  · exact foldl_zonesStep_sum rows [] (by simp)

theorem c4_sum_invariant_witness :
    ((dashboardStats [["A", "x"], ["A", "y", "", "", "Success"], ["B", "z"]]).registered +
      (dashboardStats [["A", "x"], ["A", "y", "", "", "Success"], ["B", "z"]]).notRegistered =
      (dashboardStats [["A", "x"], ["A", "y", "", "", "Success"], ["B", "z"]]).total) ∧
    ({ name := "A", total := 2, registered := 1, notRegistered := 1 } : ZoneStat) ∈
      dashboardZones [["A", "x"], ["A", "y", "", "", "Success"], ["B", "z"]] ∧
    (2 : Nat) = 1 + 1 :=
  ⟨(c4_sum_invariant [["A", "x"], ["A", "y", "", "", "Success"], ["B", "z"]]).1,
   by decide,
   by
    have := (c4_sum_invariant [["A", "x"], ["A", "y", "", "", "Success"], ["B", "z"]]).2
      { name := "A", total := 2, registered := 1, notRegistered := 1 } (by decide)
    omega⟩

/-- The completion and percentage policy holds for any raw role tally pushed
through the final mapping of the role-stats handler. -/
theorem mkRoleStatsOut_spec (rc : RoleCount) :
    ((mkRoleStatsOut rc).isComplete = true ↔
      0 < (mkRoleStatsOut rc).total ∧
        (mkRoleStatsOut rc).registered = (mkRoleStatsOut rc).total) ∧
    ((mkRoleStatsOut rc).total = 0 →
      (mkRoleStatsOut rc).pct10 = 0 ∧ (mkRoleStatsOut rc).isComplete = false) := by
  unfold mkRoleStatsOut
  constructor
  · simp
  · intro h
    simp_all

/-- C5: in every entry of the role-stats response and for both role groups,
isComplete holds exactly when the group is nonempty and fully registered, and
an empty group reports percentage 0 with isComplete false (no division by
zero is attempted). -/
theorem c5_role_stats_complete (rows : List Row) (entry : ZoneRoleStatsOut)
    (h : entry ∈ dashboardRoleStats rows) :
    (entry.secretariat.isComplete = true ↔
      0 < entry.secretariat.total ∧
        entry.secretariat.registered = entry.secretariat.total) ∧
    (entry.secretariat.total = 0 →
      entry.secretariat.pct10 = 0 ∧ entry.secretariat.isComplete = false) ∧
    (entry.executive.isComplete = true ↔
      0 < entry.executive.total ∧ entry.executive.registered = entry.executive.total) ∧
    (entry.executive.total = 0 →
      entry.executive.pct10 = 0 ∧ entry.executive.isComplete = false) := by
  unfold dashboardRoleStats at h
  rw [List.mem_map] at h
  obtain ⟨z, _, rfl⟩ := h
  obtain ⟨hs1, hs2⟩ := mkRoleStatsOut_spec z.secretariat
  obtain ⟨he1, he2⟩ := mkRoleStatsOut_spec z.executive
  exact ⟨hs1, hs2, he1, he2⟩

theorem c5_role_stats_complete_witness :
    (⟨"Z", mkRoleStatsOut ⟨1, 1⟩, mkRoleStatsOut ⟨0, 0⟩⟩ : ZoneRoleStatsOut) ∈
      dashboardRoleStats [["Z", "N", "", "", "Success", "Secretariat", ""]] ∧
    (((⟨"Z", mkRoleStatsOut ⟨1, 1⟩, mkRoleStatsOut ⟨0, 0⟩⟩ :
        ZoneRoleStatsOut).secretariat.isComplete = true ↔
      0 < (mkRoleStatsOut ⟨1, 1⟩).total ∧
        (mkRoleStatsOut ⟨1, 1⟩).registered = (mkRoleStatsOut ⟨1, 1⟩).total) ∧
    ((mkRoleStatsOut ⟨1, 1⟩).total = 0 →
      (mkRoleStatsOut ⟨1, 1⟩).pct10 = 0 ∧ (mkRoleStatsOut ⟨1, 1⟩).isComplete = false) ∧
    ((mkRoleStatsOut ⟨0, 0⟩).isComplete = true ↔
      0 < (mkRoleStatsOut ⟨0, 0⟩).total ∧
        (mkRoleStatsOut ⟨0, 0⟩).registered = (mkRoleStatsOut ⟨0, 0⟩).total) ∧
    ((mkRoleStatsOut ⟨0, 0⟩).total = 0 →
      (mkRoleStatsOut ⟨0, 0⟩).pct10 = 0 ∧ (mkRoleStatsOut ⟨0, 0⟩).isComplete = false)) :=
  ⟨by decide,
   c5_role_stats_complete [["Z", "N", "", "", "Success", "Secretariat", ""]]
     ⟨"Z", mkRoleStatsOut ⟨1, 1⟩, mkRoleStatsOut ⟨0, 0⟩⟩ (by decide)⟩

/-- C6 counterexample: POST /api/call-status is registered without the
`authenticateToken` middleware, so a request with no bearer token is not
answered 401 and the handler does perform its sheet write (here on a store
with a matching row). -/
theorem c6_counterexample :
    handlerRuns Route.callStatus BearerToken.missing = true ∧
    dispatchStatus Route.callStatus BearerToken.missing 200 ≠ 401 ∧
    (callStatusHandler "A" "x" "vilichu_pankedukkum" "done" [["A", "x"]]).2 ≠
      [["A", "x"]] := by
  decide

/-- C6 amended: a missing or invalid bearer token yields 401 with the
handler not running on every /api/dashboard/* route, but /api/call-status
carries no authentication middleware: its handler runs and the response
status is the handler's own regardless of the token. -/
theorem c6_amended_auth (t : BearerToken) (h : tokenAccepted t = false) (s : Nat) :
    (∀ r : Route, isDashboardRoute r = true →
      dispatchStatus r t s = 401 ∧ handlerRuns r t = false) ∧
    handlerRuns Route.callStatus t = true ∧
    dispatchStatus Route.callStatus t s = s := by
  cases t with
  | valid => simp [tokenAccepted] at h
  | missing =>
    refine ⟨fun r hr => ?_, rfl, rfl⟩
    cases r <;> first | exact ⟨rfl, rfl⟩ | exact absurd hr (by decide)
  | invalid =>
    refine ⟨fun r hr => ?_, rfl, rfl⟩
    cases r <;> first | exact ⟨rfl, rfl⟩ | exact absurd hr (by decide)

theorem c6_amended_auth_witness :
    tokenAccepted BearerToken.missing = false ∧
    ((∀ r : Route, isDashboardRoute r = true →
      dispatchStatus r BearerToken.missing 200 = 401 ∧
        handlerRuns r BearerToken.missing = false) ∧
    handlerRuns Route.callStatus BearerToken.missing = true ∧
    dispatchStatus Route.callStatus BearerToken.missing 200 = 200) :=
  ⟨rfl, c6_amended_auth BearerToken.missing rfl 200⟩

/-- C7: GET /api/data returns exactly the rows whose trimmed status is
neither "Success" nor "Leave", in row order, each mapped to the
{mandalam, name} pair read from columns 0 and 1 with the empty string for
missing cells. -/
theorem c7_api_data (rows : List Row) :
    apiData rows =
      (rows.filter fun row =>
        decide (jsTrim (cell row 4) ≠ "Success" ∧ jsTrim (cell row 4) ≠ "Leave")).map
        fun row => { mandalam := cell row 0, name := cell row 1 } := by
  unfold apiData
  cases rows with
  | nil => simp
  | cons a as =>
    rw [if_neg (by simp)]
    have hpred : ∀ row ∈ a :: as,
        (jsTrim (cell row 4) != "Success" && jsTrim (cell row 4) != "Leave") =
          decide (jsTrim (cell row 4) ≠ "Success" ∧ jsTrim (cell row 4) ≠ "Leave") := by
      intro row _
      by_cases h1 : jsTrim (cell row 4) = "Success" <;>
        by_cases h2 : jsTrim (cell row 4) = "Leave" <;> simp [h1, h2]
    rw [List.filter_congr hpred]

/-- Membership in a descending insertion. -/
theorem mem_insertKeyDesc {α : Type} (key : α → Nat) (x y : α) (l : List α) :
    y ∈ insertKeyDesc key x l ↔ y = x ∨ y ∈ l := by
  induction l with
  | nil => simp [insertKeyDesc]
  | cons z zs ih =>
    unfold insertKeyDesc
    by_cases h : key z ≤ key x
    · simp [h]
    · simp only [h, if_false, List.mem_cons, ih]
      tauto

/-- Inserting into a list sorted by non-increasing key keeps it sorted. -/
theorem pairwise_insertKeyDesc {α : Type} (key : α → Nat) (x : α) (l : List α)
    (h : l.Pairwise fun a b => key b ≤ key a) :
    (insertKeyDesc key x l).Pairwise fun a b => key b ≤ key a := by
  induction l with
  | nil => simp [insertKeyDesc]
  | cons z zs ih =>
    obtain ⟨hza, hzs⟩ := List.pairwise_cons.mp h
    unfold insertKeyDesc
    by_cases hz : key z ≤ key x
    · rw [if_pos hz]
      refine List.pairwise_cons.mpr ⟨?_, h⟩
      intro b hb
      rcases List.mem_cons.mp hb with rfl | hb
      · exact hz
      · exact le_trans (hza b hb) hz
    · rw [if_neg hz]
      refine List.pairwise_cons.mpr ⟨?_, ih hzs⟩
      intro b hb
      rcases (mem_insertKeyDesc key x b zs).mp hb with rfl | hb
      · omega
      · exact hza b hb

/-- The output of the descending stable sort is sorted by non-increasing
key. -/
theorem pairwise_sortKeyDesc {α : Type} (key : α → Nat) (l : List α) :
    (sortKeyDesc key l).Pairwise fun a b => key b ≤ key a := by
  induction l with
  | nil => exact List.Pairwise.nil
  | cons x xs ih => exact pairwise_insertKeyDesc key x _ ih

/-- Restricting a descending insertion to one key value either prepends the
new element (when it has that key) or changes nothing: elements skipped over
all have strictly larger keys. -/
theorem filter_insertKeyDesc {α : Type} (key : α → Nat) (x : α) (l : List α) (k : Nat) :
    (insertKeyDesc key x l).filter (fun a => key a == k) =
      if key x == k then x :: l.filter (fun a => key a == k)
      else l.filter (fun a => key a == k) := by
  induction l with
  | nil => simp [insertKeyDesc, List.filter_cons]
  | cons z zs ih =>
    unfold insertKeyDesc
    by_cases hz : key z ≤ key x
    · rw [if_pos hz]
      by_cases hk : (key x == k) = true <;> simp [List.filter_cons, hk]
    · rw [if_neg hz, List.filter_cons, ih]
      by_cases hk1 : (key z == k) = true <;> by_cases hk2 : (key x == k) = true
      · exfalso
        have h1 : key z = k := by simpa using hk1
        have h2 : key x = k := by simpa using hk2
        omega
      · simp [List.filter_cons, hk1, hk2]
      · simp [List.filter_cons, hk1, hk2]
      · simp [List.filter_cons, hk1, hk2]

/-- Stability of the descending sort: the subsequence of elements with any
fixed key value is exactly that of the input, in the same order. -/
theorem filter_sortKeyDesc {α : Type} (key : α → Nat) (l : List α) (k : Nat) :
    (sortKeyDesc key l).filter (fun a => key a == k) = l.filter (fun a => key a == k) := by
  induction l with
  | nil => rfl
  | cons x xs ih =>
    show (insertKeyDesc key x (sortKeyDesc key xs)).filter (fun a => key a == k) = _
    rw [filter_insertKeyDesc, ih, List.filter_cons]

/-- C8 counterexample: under the 'All' role filter the message's zone list is
not sorted by completion percentage. Two zones with secretariat-only members
(A at 0%, B at 50%, both incomplete, produced verbatim by the role-stats
endpoint on four sheet rows) are listed as [A, B], in ascending percentage
order. -/
theorem c8_counterexample :
    dashboardRoleStats
      [["A", "a1", "", "", "", "Secretariat"], ["A", "a2", "", "", "", "Secretariat"],
       ["B", "b1", "", "", "Success", "Secretariat"], ["B", "b2", "", "", "", "Secretariat"]] =
      [⟨"A", mkRoleStatsOut ⟨2, 0⟩, mkRoleStatsOut ⟨0, 0⟩⟩,
       ⟨"B", mkRoleStatsOut ⟨2, 1⟩, mkRoleStatsOut ⟨0, 0⟩⟩] ∧
    roleReportZones RoleReportFilter.all
      [⟨"A", mkRoleStatsOut ⟨2, 0⟩, mkRoleStatsOut ⟨0, 0⟩⟩,
       ⟨"B", mkRoleStatsOut ⟨2, 1⟩, mkRoleStatsOut ⟨0, 0⟩⟩] =
      [⟨"A", mkRoleStatsOut ⟨2, 0⟩, mkRoleStatsOut ⟨0, 0⟩⟩,
       ⟨"B", mkRoleStatsOut ⟨2, 1⟩, mkRoleStatsOut ⟨0, 0⟩⟩] ∧
    secIncomplete ⟨"A", mkRoleStatsOut ⟨2, 0⟩, mkRoleStatsOut ⟨0, 0⟩⟩ = true ∧
    secIncomplete ⟨"B", mkRoleStatsOut ⟨2, 1⟩, mkRoleStatsOut ⟨0, 0⟩⟩ = true ∧
    (mkRoleStatsOut ⟨2, 0⟩).pct10 < (mkRoleStatsOut ⟨2, 1⟩).pct10 := by
  decide

/-- C8 amended: for the 'Secretariat' and 'Executive' role filters the
message's zone list is sorted by non-increasing completion percentage and
zones of equal percentage keep their original relative order; the 'All'
filter applies no percentage sort (its zones appear in combined insertion
order, as the counterexample shows). -/
theorem c8_amended_role_report_order (roleStats : List ZoneRoleStatsOut) :
    ((roleReportZones RoleReportFilter.secretariat roleStats).Pairwise
      (fun a b => b.secretariat.pct10 ≤ a.secretariat.pct10) ∧
     ∀ k : Nat,
      (roleReportZones RoleReportFilter.secretariat roleStats).filter
          (fun z => z.secretariat.pct10 == k) =
        (roleStats.filter secIncomplete).filter (fun z => z.secretariat.pct10 == k)) ∧
    ((roleReportZones RoleReportFilter.executive roleStats).Pairwise
      (fun a b => b.executive.pct10 ≤ a.executive.pct10) ∧
     ∀ k : Nat,
      (roleReportZones RoleReportFilter.executive roleStats).filter
          (fun z => z.executive.pct10 == k) =
        (roleStats.filter execIncomplete).filter (fun z => z.executive.pct10 == k)) :=
  ⟨⟨pairwise_sortKeyDesc _ _, fun k => filter_sortKeyDesc _ _ k⟩,
   ⟨pairwise_sortKeyDesc _ _, fun k => filter_sortKeyDesc _ _ k⟩⟩

/-- C9 counterexample: when the admin-sheet read of the login route errors
(and the credentials are not the master pair), the handler answers 401, not a
500 echoing the store's error message; and the stats route's 500 carries a
fixed body that does not echo the message either. -/
theorem c9_counterexample :
    (loginHandler ⟨"admin", "secret"⟩ "user" "pw" (Except.error "boom")).status = 401 ∧
    (loginHandler ⟨"admin", "secret"⟩ "user" "pw" (Except.error "boom")).status ≠ 500 ∧
    statsRoute (Except.error "boom") = ApiResult.err 500 "Failed to fetch statistics" := by
  decide

/-- C9 amended: an upstream row-store failure is surfaced as 500 echoing the
underlying message (after a fixed prefix) on the data, register and
call-status routes; as 500 with a fixed generic body that does not echo the
message on each of the four dashboard routes; and it is swallowed entirely on
the login route, which answers 401 Invalid credentials when the master
credentials do not match. -/
theorem c9_amended_upstream (msg m n mob part zone nm cs rem : String)
    (zq rq sq : Option String) (env : LoginEnv) (u p : String)
    (h : (u == env.adminUsername && p == env.adminPassword) = false) :
    apiDataRoute (Except.error msg) = ApiResult.err 500 ("Error fetching data: " ++ msg) ∧
    registerRouteResp m n mob part (Except.error msg) =
      { status := 500, body := "Error saving data: " ++ msg } ∧
    callStatusRouteResp zone nm cs rem (Except.error msg) =
      { status := 500, body := "Error updating call status: " ++ msg } ∧
    statsRoute (Except.error msg) = ApiResult.err 500 "Failed to fetch statistics" ∧
    zonesRoute (Except.error msg) = ApiResult.err 500 "Failed to fetch zone data" ∧
    membersRoute zq rq sq (Except.error msg) = ApiResult.err 500 "Failed to fetch members" ∧
    roleStatsRoute (Except.error msg) =
      ApiResult.err 500 "Failed to fetch role statistics" ∧
    loginHandler env u p (Except.error msg) =
      { status := 401, body := "Invalid credentials" } := by
  refine ⟨rfl, rfl, rfl, rfl, rfl, rfl, rfl, ?_⟩
  unfold loginHandler
  rw [h]
  rfl

theorem c9_amended_upstream_witness :
    (("user" == "admin" && "pw" == "secret") = false) ∧
    (apiDataRoute (Except.error "boom") =
      ApiResult.err 500 ("Error fetching data: " ++ "boom") ∧
    registerRouteResp "Z" "N" "1" "yes" (Except.error "boom") =
      { status := 500, body := "Error saving data: " ++ "boom" } ∧
    callStatusRouteResp "Z" "N" "vilichu_pankedukkum" "done" (Except.error "boom") =
      { status := 500, body := "Error updating call status: " ++ "boom" } ∧
    statsRoute (Except.error "boom") = ApiResult.err 500 "Failed to fetch statistics" ∧
    zonesRoute (Except.error "boom") = ApiResult.err 500 "Failed to fetch zone data" ∧
    membersRoute (some "all") (some "All") none (Except.error "boom") =
      ApiResult.err 500 "Failed to fetch members" ∧
    roleStatsRoute (Except.error "boom") =
      ApiResult.err 500 "Failed to fetch role statistics" ∧
    loginHandler ⟨"admin", "secret"⟩ "user" "pw" (Except.error "boom") =
      { status := 401, body := "Invalid credentials" }) :=
  ⟨by decide,
   c9_amended_upstream "boom" "Z" "N" "1" "yes" "Z" "N" "vilichu_pankedukkum" "done"
     (some "all") (some "All") none ⟨"admin", "secret"⟩ "user" "pw" (by decide)⟩

/-- A zone query can only remove members from the list. -/
theorem mem_of_applyZoneFilter (z : Option String) (ms : List Member) (m : Member)
    (h : m ∈ applyZoneFilter z ms) : m ∈ ms := by
  cases z with
  | none => exact h
  | some s =>
    simp only [applyZoneFilter] at h
    by_cases hs : (s != "" && s != "all") = true
    · rw [if_pos hs] at h
      exact (List.mem_filter.mp h).1
    · rw [if_neg hs] at h
      exact h

/-- A role query can only remove members from the list. -/
theorem mem_of_applyRoleFilter (r : Option String) (ms : List Member) (m : Member)
    (h : m ∈ applyRoleFilter r ms) : m ∈ ms := by
  cases r with
  | none => exact h
  | some s =>
    simp only [applyRoleFilter] at h
    by_cases hs : (s != "" && s != "All") = true
    · rw [if_pos hs] at h
      by_cases h1 : (s == "Secretariat") = true
      · rw [if_pos h1] at h
        exact (List.mem_filter.mp h).1
      · rw [if_neg h1] at h
        by_cases h2 : (s == "Executive") = true
        · rw [if_pos h2] at h
          exact (List.mem_filter.mp h).1
        · rw [if_neg h2] at h
          exact h
    · rw [if_neg hs] at h
      exact h

/-- A status query can only remove members from the list. -/
theorem mem_of_applyStatusFilter (s : Option String) (ms : List Member) (m : Member)
    (h : m ∈ applyStatusFilter s ms) : m ∈ ms := by
  unfold applyStatusFilter at h
  by_cases h1 : (s == some "registered") = true
  · rw [if_pos h1] at h
    exact (List.mem_filter.mp h).1
  · rw [if_neg h1] at h
    by_cases h2 : (s == some "not_registered") = true
    · rw [if_pos h2] at h
      exact (List.mem_filter.mp h).1
    · rw [if_neg h2] at h
      exact h

/-- C10: every member in the members response comes from a sheet row, and
its mobile field is the trimmed primary mobile column (2) when that is
nonempty and the trimmed fallback column (7) exactly when it is empty. -/
theorem c10_member_mobile_fallback (zq rq sq : Option String) (rows : List Row) (m : Member)
    (h : m ∈ dashboardMembers zq rq sq rows) :
    ∃ row ∈ rows, m = mkMember row ∧
      m.mobile =
        (if jsTrim (cell row 2) == "" then jsTrim (cell row 7) else jsTrim (cell row 2)) := by
  unfold dashboardMembers at h
  have h1 := mem_of_applyZoneFilter zq _ m
    (mem_of_applyRoleFilter rq _ m (mem_of_applyStatusFilter sq _ m h))
  rw [List.mem_map] at h1
  obtain ⟨row, hrow, rfl⟩ := h1
  exact ⟨row, (List.mem_filter.mp hrow).1, rfl, rfl⟩

theorem c10_member_mobile_fallback_witness :
    mkMember ["Z", "N", " ", "", "", "", "", " 0777 "] ∈
      dashboardMembers none none none [["Z", "N", " ", "", "", "", "", " 0777 "]] ∧
    ∃ row ∈ [["Z", "N", " ", "", "", "", "", " 0777 "]],
      mkMember ["Z", "N", " ", "", "", "", "", " 0777 "] = mkMember row ∧
      (mkMember ["Z", "N", " ", "", "", "", "", " 0777 "]).mobile =
        (if jsTrim (cell row 2) == "" then jsTrim (cell row 7) else jsTrim (cell row 2)) :=
  ⟨by decide,
   c10_member_mobile_fallback none none none [["Z", "N", " ", "", "", "", "", " 0777 "]]
     (mkMember ["Z", "N", " ", "", "", "", "", " 0777 "]) (by decide)⟩
